import Mathlib

/-
Verification of the file-service ingestion pipeline (src/main.py) against its
natural-language specification.

The embedding below translates the Python source into Lean definitions:

  - get_db_connection   (main.py lines 60-80)   connection retry with backoff
  - extract_text_from_file (lines 315-379)      format-dispatch text extraction
  - store_file_info     (lines 381-415)         metadata insert
  - upload_files        (lines 137-203)         batch upload with compensation
  - get_files           (lines 205-243)         list-by-session
  - get_file_content    (lines 245-275)         content lookup by id
  - delete_file         (lines 277-313)         delete by id

External collaborators (MySQL, the filesystem, the optional PyPDF2 and docx
libraries, the Python json and csv standard-library parsers, uuid generation
and the clock) are modelled as explicit state and oracle parameters; the
control flow, validation order, error conversion and mutation order are
translated from the source.  Python exceptions are modelled with Except; the
blanket try/except wrappers of the source are translated as explicit handlers.
-/

deriving instance DecidableEq for Except

namespace FileService

/-- Configuration constant MAX_FILE_SIZE from main.py line 53: 10 MiB. -/
def MAX_FILE_SIZE : Nat := 10 * 1024 * 1024

/-- Configuration constant ALLOWED_EXTENSIONS from main.py line 54. -/
def ALLOWED_EXTENSIONS : List String := [".pdf", ".txt", ".docx", ".csv", ".json", ".md"]

/-- Configuration constant UPLOAD_DIR default from main.py line 47. -/
def UPLOAD_DIR : String := "/app/uploads"

/-- Model of the Python str.lower for a single character, on the ASCII range
(the extensions being validated are ASCII). -/
def lowerChar (c : Char) : Char :=
  if 'A' ≤ c ∧ c ≤ 'Z' then Char.ofNat (c.toNat + 32) else c

/-- Model of the Python str.lower (ASCII range), used at main.py line 156. -/
def strLower (s : String) : String := String.mk (s.data.map lowerChar)

/-- Final path component of a filename: the characters after the last slash
(model of pathlib Path(...).name). -/
def lastComponent (cs : List Char) : List Char :=
  (cs.reverse.takeWhile (fun c => c ≠ '/')).reverse

/-- Model of pathlib Path(filename).suffix used at main.py line 156: the part
of the final component from its last dot, unless that dot is the first or the
last character of the component, in which case the suffix is empty. -/
def pathSuffix (filename : String) : String :=
  let base := lastComponent filename.data
  match base.reverse.findIdx? (fun c => c = '.') with
  | none => ""
  | some j =>
    let i := base.length - 1 - j
    if 0 < i ∧ i < base.length - 1 then String.mk (base.drop i) else ""

/-
Text extraction (extract_text_from_file, main.py lines 315-379).

File bytes are lists of natural numbers.  The parsing work delegated to the
standard library and to the optional third-party libraries (PyPDF2, docx,
csv, json.load) is modelled by oracle functions in ExtractEnv; a Python
exception raised by such a call is an Except.error result.  Reading the file
from disk (the open calls) is the readBytes oracle.  The pypdf2 and docxLib
flags model whether the optional imports at main.py lines 17-25 succeeded.
-/

/-- Parsed JSON values as returned by json.load, with arrays and objects
encoded as inline cons lists so that all recursion is structural.  Number
literals are kept as their decimal rendering. -/
inductive JsonVal where
  | null
  | jbool (b : Bool)
  | jnum (lit : String)
  | jstr (s : String)
  | arrNil
  | arrCons (head : JsonVal) (tail : JsonVal)
  | objNil
  | objCons (key : String) (val : JsonVal) (tail : JsonVal)
deriving DecidableEq

/-- Escape of one character inside a JSON string literal, as json.dumps
renders the characters that occur in this development. -/
def escChar (c : Char) : List Char :=
  if c = '"' then ['\\', '"']
  else if c = '\\' then ['\\', '\\']
  else if c = '\n' then ['\\', 'n']
  else if c = '\t' then ['\\', 't']
  else if c = '\r' then ['\\', 'r']
  else [c]

/-- Quoted JSON string literal. -/
def jsonQuote (s : String) : String :=
  "\"" ++ String.mk (s.data.flatMap escChar) ++ "\""

/-- Indentation prefix written by json.dumps with indent 2 at nesting depth
lvl. -/
def indentOf (lvl : Nat) : String := String.mk (List.replicate (2 * lvl) ' ')

/-- Model of json.dumps(value, indent=2) as called at main.py line 366: the
canonical two-space-indented pretty-print.  Containers open on their own
line, every element is indented by two spaces per depth, elements are
separated by a comma and a newline, and the closing bracket returns to the
depth of the opening one. -/
def dumpsAt (lvl : Nat) : JsonVal → String
  | .null => "null"
  | .jbool true => "true"
  | .jbool false => "false"
  | .jnum lit => lit
  | .jstr s => jsonQuote s
  | .arrNil => "[]"
  | .arrCons x xs =>
      "[\n" ++ dumpsItems (lvl + 1) (dumpsAt (lvl + 1) x) xs ++ "\n" ++ indentOf lvl ++ "]"
  | .objNil => "\x7b\x7d"
  | .objCons k v fs =>
      "\x7b\n" ++ dumpsItems (lvl + 1) (jsonQuote k ++ ": " ++ dumpsAt (lvl + 1) v) fs
        ++ "\n" ++ indentOf lvl ++ "\x7d"
where
  dumpsItems (lvl : Nat) (first : String) : JsonVal → String
  | .arrCons x xs => indentOf lvl ++ first ++ ",\n" ++ dumpsItems lvl (dumpsAt lvl x) xs
  | .objCons k v fs =>
      indentOf lvl ++ first ++ ",\n" ++ dumpsItems lvl (jsonQuote k ++ ": " ++ dumpsAt lvl v) fs
  | _ => indentOf lvl ++ first

/-- Canonical two-space-indented serialization of a parsed JSON value,
json.dumps(v, indent=2). -/
def jsonDumps2 (v : JsonVal) : String := dumpsAt 0 v

/-- Runtime environment of extract_text_from_file: availability of the
optional libraries, the result of reading the stored file from disk, the
results of the library parsing calls, and the tolerant text decoding. -/
structure ExtractEnv where
  pypdf2 : Bool
  docxLib : Bool
  readBytes : Except Unit (List Nat)
  pdfParse : List Nat → Except Unit (List String)
  docxParse : List Nat → Except Unit (List String)
  csvParse : List Nat → Except Unit (List (List String))
  jsonParse : List Nat → Except Unit JsonVal
  decodeText : List Nat → String

/-- Body of extract_text_from_file (main.py lines 317-375): the dispatch on
the extension, with each format-specific try/except translated in place.  An
error escaping this body models an exception reaching the outer handler at
line 377; only the plain-text branch lets the disk read escape, every other
branch catches its own failures and returns its placeholder. -/
def extract_text_body (env : ExtractEnv) (file_ext : String) : Except Unit String :=
  if file_ext = ".txt" ∨ file_ext = ".md" then
    match env.readBytes with
    | .ok b => .ok (env.decodeText b)
    | .error e => .error e
  else if file_ext = ".pdf" ∧ env.pypdf2 = true then
    match env.readBytes.bind env.pdfParse with
    | .ok pages => .ok (String.join (pages.map (fun p => p ++ "\n")))
    | .error _ => .ok "PDF content could not be extracted"
  else if file_ext = ".docx" ∧ env.docxLib = true then
    match env.readBytes.bind env.docxParse with
    | .ok paras => .ok (String.join (paras.map (fun p => p ++ "\n")))
    | .error _ => .ok "DOCX content could not be extracted"
  else if file_ext = ".csv" then
    match env.readBytes.bind env.csvParse with
    | .ok rows => .ok (String.join (rows.map (fun r => String.intercalate ", " r ++ "\n")))
    | .error _ => .ok "CSV content could not be extracted"
  else if file_ext = ".json" then
    match env.readBytes.bind env.jsonParse with
    | .ok v => .ok (jsonDumps2 v)
    | .error _ => .ok "JSON content could not be extracted"
  else
    .ok "File type not supported for text extraction"

/-- Function extract_text_from_file (main.py lines 315-379): the dispatch
body wrapped in the outer try/except that degrades any escaped exception to
the final placeholder string. -/
def extract_text_from_file (env : ExtractEnv) (file_ext : String) : String :=
  match extract_text_body env file_ext with
  | .ok s => s
  | .error _ => "Text extraction failed"

/-- The fixed diagnostic placeholder strings that extract_text_from_file can
return instead of genuinely extracted content. -/
def placeholders : List String :=
  [ "PDF content could not be extracted"
  , "DOCX content could not be extracted"
  , "CSV content could not be extracted"
  , "JSON content could not be extracted"
  , "File type not supported for text extraction"
  , "Text extraction failed" ]

/-- Genuinely extracted content for an environment and extension: the text
the successful path of the matching branch produces (empty when there is no
such branch or its parse fails, in which case the extractor answers with a
placeholder instead). -/
def genuine_text (env : ExtractEnv) (file_ext : String) : String :=
  if file_ext = ".txt" ∨ file_ext = ".md" then
    match env.readBytes with
    | .ok b => env.decodeText b
    | .error _ => ""
  else if file_ext = ".pdf" ∧ env.pypdf2 = true then
    match env.readBytes.bind env.pdfParse with
    | .ok pages => String.join (pages.map (fun p => p ++ "\n"))
    | .error _ => ""
  else if file_ext = ".docx" ∧ env.docxLib = true then
    match env.readBytes.bind env.docxParse with
    | .ok paras => String.join (paras.map (fun p => p ++ "\n"))
    | .error _ => ""
  else if file_ext = ".csv" then
    match env.readBytes.bind env.csvParse with
    | .ok rows => String.join (rows.map (fun r => String.intercalate ", " r ++ "\n"))
    | .error _ => ""
  else if file_ext = ".json" then
    match env.readBytes.bind env.jsonParse with
    | .ok v => jsonDumps2 v
    | .error _ => ""
  else
    ""

/-
Connection manager (get_db_connection, main.py lines 60-80).

The outcome of each mysql.connector.connect call is an oracle indexed by the
attempt number: ok b is a connection object whose is_connected() answers b,
err is a raised mysql.connector.Error.  The model returns the index of the
successful attempt (standing for the connection object) together with the
list of time.sleep durations performed, in order.
-/

/-- Outcome of one mysql.connector.connect call. -/
inductive ConnAttempt where
  | ok (isConnected : Bool)
  | err
deriving DecidableEq

/-- Loop body of get_db_connection over the remaining attempt indices.  The
argument last is max_retries - 1: an error on an earlier attempt sleeps
2 ^ attempt seconds and retries, an error on the last attempt returns None
without raising; a connection that reports not connected falls through to
the next iteration without sleeping. -/
def connGo (oracle : Nat → ConnAttempt) (last : Nat) : List Nat → Option Nat × List Nat
  | [] => (none, [])
  | attempt :: rest =>
    match oracle attempt with
    | .ok true => (some attempt, [])
    | .ok false => connGo oracle last rest
    | .err =>
      if attempt < last then
        let r := connGo oracle last rest
        (r.1, 2 ^ attempt :: r.2)
      else (none, [])

/-- Function get_db_connection (main.py lines 60-80): up to max_retries
attempts, exponential backoff between failed attempts, first successful
connection returned immediately, None after exhaustion. -/
def get_db_connection (oracle : Nat → ConnAttempt) (max_retries : Nat) :
    Option Nat × List Nat :=
  connGo oracle (max_retries - 1) (List.range max_retries)

/-
Data model: the uploaded_files table and the content store.
-/

/-- One row of the uploaded_files table (schema used at main.py lines
391-395); upload_date is the insert-time timestamp the store assigns. -/
structure Row where
  id : Nat
  session_id : String
  filename : String
  original_name : String
  file_type : String
  file_size : Nat
  file_path : String
  extracted_text : Option String
  upload_date : Nat
deriving DecidableEq

/-- The metadata store: the table rows plus the auto-increment counter. -/
structure DB where
  rows : List Row
  nextId : Nat
deriving DecidableEq

/-- The content store: path-addressed file objects, most recent write
first. -/
abbrev Disk := List (String × List Nat)

/-- Writing raw bytes to the content store (open(file_path, "wb") at
main.py line 168): the new object shadows any previous object at the same
path. -/
def diskWrite (d : Disk) (p : String) (c : List Nat) : Disk := (p, c) :: d

/-- Removing a path from the content store (os.remove guarded by
os.path.exists): removing an absent path is a no-op. -/
def diskRemove (d : Disk) (p : String) : Disk := d.filter (fun e => e.1 != p)

/-- Content currently stored at a path, if any. -/
def diskLookup (d : Disk) (p : String) : Option (List Nat) :=
  (d.find? (fun e => e.1 == p)).map (fun e => e.2)

/-- Python truthiness of an optional string, bool(x): None and the empty
string are falsy. -/
def optBool : Option String → Bool
  | none => false
  | some t => !(t == "")

/-- Caller-facing summary dict built by store_file_info (main.py lines
403-411). -/
structure Summary where
  id : Nat
  filename : String
  original_name : String
  file_type : String
  file_size : Nat
  has_text : Bool
  file_path : String
deriving DecidableEq

/-- One file part of an upload request: the submitted filename and the raw
bytes. -/
structure InFile where
  filename : String
  content : List Nat
deriving DecidableEq

/-- Ambient nondeterminism of one upload batch: the uuid4 generated for the
k-th file, whether the k-th store_file_info insert succeeds (false covers
both a failed connection and a rejected write), the text the extractor
returns for the k-th file, and the insert timestamp. -/
structure UpEnv where
  uuidName : Nat → String
  insertOk : Nat → Bool
  extracted : Nat → Option String
  timeAt : Nat → Nat

/-- Function store_file_info (main.py lines 381-415): inserts one row with
the auto-assigned id and returns the summary dict; raises (error) when the
connection cannot be acquired or the write is rejected. -/
def store_file_info (env : UpEnv) (call : Nat) (db : DB)
    (session_id filename original_name file_type : String)
    (file_size : Nat) (file_path : String) (extracted_text : Option String) :
    Except Unit (DB × Summary) :=
  if env.insertOk call then
    let row : Row :=
      { id := db.nextId, session_id := session_id, filename := filename
      , original_name := original_name, file_type := file_type
      , file_size := file_size, file_path := file_path
      , extracted_text := extracted_text, upload_date := env.timeAt call }
    .ok ( { rows := db.rows ++ [row], nextId := db.nextId + 1 }
        , { id := db.nextId, filename := filename, original_name := original_name
          , file_type := file_type, file_size := file_size
          , has_text := optBool extracted_text, file_path := file_path } )
  else
    .error ()

/-- Validation or storage failure aborting an upload batch. -/
inductive UpErr where
  | tooLarge (filename : String)
  | badType (ext : String)
  | storeFailed
deriving DecidableEq

/-- Detail string of the one batch-level error the caller receives (the
blanket handler at main.py line 203 re-raises every failure as status 500
with the stringified original exception as detail). -/
def upErrMsg : UpErr → String
  | .tooLarge name => "File " ++ name ++ " is too large. Max size is 10MB"
  | .badType ext => "File type " ++ ext ++ " not supported"
  | .storeFailed => "Failed to store file info: Database connection failed"

/-- Combined state of the two persistence resources. -/
structure UploadState where
  db : DB
  disk : Disk
deriving DecidableEq

/-- Per-file loop of upload_files (main.py lines 146-186), processing the
files strictly in submission order: validate size, validate the lowercased
extension, write the bytes to the content store, extract text, insert the
metadata row, accumulate the summary.  The first failure stops the loop and
reports which exception was raised; k counts the files already handled. -/
def uploadLoop (env : UpEnv) (session_id : String) :
    List InFile → Nat → UploadState → List Summary →
    UploadState × List Summary × Option UpErr
  | [], _, st, acc => (st, acc, none)
  | f :: rest, k, st, acc =>
    if f.content.length > MAX_FILE_SIZE then
      (st, acc, some (.tooLarge f.filename))
    else
      let file_ext := strLower (pathSuffix f.filename)
      if file_ext ∉ ALLOWED_EXTENSIONS then
        (st, acc, some (.badType file_ext))
      else
        let unique_filename := env.uuidName k ++ file_ext
        let file_path := UPLOAD_DIR ++ "/" ++ unique_filename
        let disk1 := diskWrite st.disk file_path f.content
        match store_file_info env k st.db session_id unique_filename f.filename
            file_ext f.content.length file_path (env.extracted k) with
        | .ok (db1, summ) => uploadLoop env session_id rest (k + 1) ⟨db1, disk1⟩ (acc ++ [summ])
        | .error _ => (⟨st.db, disk1⟩, acc, some .storeFailed)

/-- Endpoint POST /upload (upload_files, main.py lines 137-203).  On full
success the summaries are returned; on any failure the blanket handler
removes the content-store object of every summary accumulated so far (the
metadata store is not touched) and reports one status-500 error for the
whole batch. -/
def upload_files (env : UpEnv) (session_id : String) (files : List InFile)
    (st0 : UploadState) : UploadState × Except (Nat × String) (List Summary) :=
  match uploadLoop env session_id files 0 st0 [] with
  | (st, acc, none) => (st, .ok acc)
  | (st, acc, some e) =>
    ( { st with disk := acc.foldl (fun d s => diskRemove d s.file_path) st.disk }
    , .error (500, upErrMsg e) )

/-
Read and delete endpoints (main.py lines 205-313).  The availability of the
metadata store is the connOk flag (get_db_connection returning a connection
or None); the SQL statements are modelled by their documented semantics on
the table rows.
-/

/-- One element of the files list returned by GET /files/{session_id}
(main.py lines 227-235). -/
structure FileView where
  id : Nat
  filename : String
  content : String
  content_type : String
  file_size : Nat
  upload_date : Nat
  has_text : Bool
deriving DecidableEq

/-- Display content of a row, row[6] if row[6] else a fallback. -/
def optContent (fallback : String) : Option String → String
  | none => fallback
  | some t => if t == "" then fallback else t

/-- Projection of a table row to the response shape of GET /files. -/
def rowView (r : Row) : FileView :=
  { id := r.id, filename := r.original_name
  , content := optContent "No content available" r.extracted_text
  , content_type := r.file_type, file_size := r.file_size
  , upload_date := r.upload_date, has_text := optBool r.extracted_text }

/-- Ordering used by ORDER BY upload_date DESC: the left row is at least as
recent as the right one. -/
def laterEq (a b : Row) : Prop := b.upload_date ≤ a.upload_date

instance : DecidableRel laterEq := fun a b => Nat.decLe b.upload_date a.upload_date

instance : IsTotal Row laterEq := ⟨fun a b => (Nat.le_total a.upload_date b.upload_date).symm⟩

instance : IsTrans Row laterEq := ⟨fun _ _ _ h1 h2 => Nat.le_trans h2 h1⟩

/-- Endpoint GET /files/{session_id} (get_files, main.py lines 205-243):
SELECT the rows of the session ORDER BY upload_date DESC and project each to
its response shape; with the store unreachable, the raised connection error
is converted by the blanket handler into the generic status-500 failure. -/
def get_files (connOk : Bool) (db : DB) (session_id : String) :
    Except (Nat × String) (List FileView) :=
  if connOk then
    .ok ((List.insertionSort laterEq
      (db.rows.filter (fun r => r.session_id == session_id))).map rowView)
  else
    .error (500, "Failed to retrieve files")

/-- Response of GET /file/content/{file_id} (main.py lines 267-271). -/
structure ContentView where
  file_id : Nat
  filename : String
  content : String
deriving DecidableEq

/-- Body of the try block of get_file_content (main.py lines 248-271): raise
500 when the connection is unavailable, raise 404 when no row matches,
otherwise answer with the stored content or its fallback. -/
def get_file_content_body (connOk : Bool) (db : DB) (file_id : Nat) :
    Except (Nat × String) ContentView :=
  if connOk then
    match db.rows.find? (fun r => r.id == file_id) with
    | none => .error (404, "File not found")
    | some r =>
      .ok { file_id := file_id, filename := r.original_name
          , content := optContent "No text content available" r.extracted_text }
  else
    .error (500, "Database connection failed")

/-- Endpoint GET /file/content/{file_id} (get_file_content, main.py lines
245-275): the body wrapped in the blanket except-Exception handler, which
catches every raised HTTPException as well and replaces it with the generic
status-500 failure. -/
def get_file_content (connOk : Bool) (db : DB) (file_id : Nat) :
    Except (Nat × String) ContentView :=
  match get_file_content_body connOk db file_id with
  | .ok v => .ok v
  | .error _ => .error (500, "Failed to retrieve file content")

/-- Body of the try block of delete_file (main.py lines 280-309): look up
the row, raise 404 when absent, otherwise delete the metadata row first and
then remove the physical object, treating an already absent object as
success. -/
def delete_file_body (connOk : Bool) (st : UploadState) (file_id : Nat) :
    UploadState × Except (Nat × String) String :=
  if connOk then
    match st.db.rows.find? (fun r => r.id == file_id) with
    | none => (st, .error (404, "File not found"))
    | some r =>
      ( ⟨{ rows := st.db.rows.filter (fun x => x.id != file_id), nextId := st.db.nextId }
        , diskRemove st.disk r.file_path⟩
      , .ok "File deleted successfully" )
  else
    (st, .error (500, "Database connection failed"))

/-- Endpoint DELETE /file/{file_id} (delete_file, main.py lines 277-313):
the body wrapped in the blanket except-Exception handler, which catches the
raised HTTPException as well and replaces it with the generic status-500
failure. -/
def delete_file (connOk : Bool) (st : UploadState) (file_id : Nat) :
    UploadState × Except (Nat × String) String :=
  match delete_file_body connOk st file_id with
  | (st1, .ok m) => (st1, .ok m)
  | (st1, .error _) => (st1, .error (500, "Failed to delete file"))

/-- Call of get_db_connection with the default argument max_retries=5 of the
source. -/
def get_db_connection_default (oracle : Nat → ConnAttempt) : Option Nat × List Nat :=
  get_db_connection oracle 5

/-- Unfolding step of connGo: a successful and connected attempt returns
immediately. -/
theorem connGo_cons_ok (oracle : Nat → ConnAttempt) (last a : Nat) (rest : List Nat)
    (ha : oracle a = ConnAttempt.ok true) :
    connGo oracle last (a :: rest) = (some a, []) := by
  simp only [connGo, ha]

/-- Unfolding step of connGo: a failed attempt before the last one sleeps
2 ^ attempt and continues with the remaining attempts. -/
theorem connGo_cons_err (oracle : Nat → ConnAttempt) (last a : Nat) (rest : List Nat)
    (ha : oracle a = ConnAttempt.err) (hlt : a < last) :
    connGo oracle last (a :: rest) =
      ((connGo oracle last rest).1, 2 ^ a :: (connGo oracle last rest).2) := by
  simp only [connGo, ha, if_pos hlt]

/-- Unfolding step of connGo: a failed attempt at the last position returns
the absence value without sleeping. -/
theorem connGo_cons_err_stop (oracle : Nat → ConnAttempt) (last a : Nat) (rest : List Nat)
    (ha : oracle a = ConnAttempt.err) (hge : ¬ a < last) :
    connGo oracle last (a :: rest) = (none, []) := by
  simp only [connGo, ha, if_neg hge]

/-- Helper: when every attempt in the window fails with an error, the loop
exhausts the window, sleeping after each attempt except the last. -/
theorem connGo_all_err (oracle : Nat → ConnAttempt) :
    ∀ (n a : Nat), (∀ k, a ≤ k → k < a + n → oracle k = ConnAttempt.err) →
    connGo oracle (a + n - 1) (List.range' a n) =
      (none, (List.range' a (n - 1)).map (fun i => 2 ^ i)) := by
  intro n
  induction n with
  | zero =>
    intro a _
    simp [connGo]
  | succ m ih =>
    intro a h
    rw [List.range'_succ]
    have ha : oracle a = ConnAttempt.err := h a le_rfl (by omega)
    cases m with
    | zero =>
      rw [connGo_cons_err_stop oracle _ a _ ha (by omega)]
      simp
    | succ m1 =>
      have hlt : a < a + (m1 + 1 + 1) - 1 := by omega
      have hrec := ih (a + 1) (fun k hk1 hk2 => h k (by omega) (by omega))
      have heq : a + 1 + (m1 + 1) - 1 = a + (m1 + 1 + 1) - 1 := by omega
      rw [heq] at hrec
      rw [connGo_cons_err oracle _ a _ ha hlt, hrec]
      have heq2 : m1 + 1 + 1 - 1 = (m1 + 1 - 1) + 1 := by omega
      rw [heq2, List.range'_succ]
      simp

/-- Helper: when the first successful attempt is j, the loop sleeps after
each of the j failed attempts before it and stops at j. -/
theorem connGo_first_ok (oracle : Nat → ConnAttempt) (j last : Nat)
    (hj : oracle j = ConnAttempt.ok true) (hle : j ≤ last) :
    ∀ (n a : Nat), a ≤ j → j < a + n →
    (∀ k, a ≤ k → k < j → oracle k = ConnAttempt.err) →
    connGo oracle last (List.range' a n) =
      (some j, (List.range' a (j - a)).map (fun i => 2 ^ i)) := by
  intro n
  induction n with
  | zero =>
    intro a h1 h2 _
    omega
  | succ m ih =>
    intro a h1 h2 h3
    rw [List.range'_succ]
    by_cases hae : a = j
    · subst hae
      rw [connGo_cons_ok oracle last a _ hj]
      simp
    · have ha : oracle a = ConnAttempt.err := h3 a le_rfl (by omega)
      have hlt : a < last := by omega
      have hrec := ih (a + 1) (by omega) (by omega) (fun k hk1 hk2 => h3 k (by omega) hk2)
      rw [connGo_cons_err oracle last a _ ha hlt, hrec]
      have heq : j - a = (j - (a + 1)) + 1 := by omega
      rw [heq, List.range'_succ]
      simp

/-- Claim C6: get_db_connection performs at most max_retries connection
attempts; between failed attempts it sleeps exactly 2 ^ attempt time units
(1, 2, 4, 8, ... starting from attempt 0); it returns the first successful
connection immediately, with exactly the backoffs of the preceding failed
attempts; and when every attempt fails it returns the explicit absence value
none, having slept after each attempt but the last, without raising.  The
source default for max_retries is 5. -/
theorem get_db_connection_spec (oracle : Nat → ConnAttempt) (max_retries j : Nat) :
    ((∀ k, k < max_retries → oracle k = ConnAttempt.err) →
      get_db_connection oracle max_retries =
        (none, (List.range (max_retries - 1)).map (fun i => 2 ^ i)))
    ∧ (j < max_retries →
       (∀ k, k < j → oracle k = ConnAttempt.err) →
       oracle j = ConnAttempt.ok true →
      get_db_connection oracle max_retries =
        (some j, (List.range j).map (fun i => 2 ^ i)))
    ∧ get_db_connection_default oracle = get_db_connection oracle 5 := by
  refine ⟨?_, ?_, rfl⟩
  · intro h
    have := connGo_all_err oracle max_retries 0 (fun k _ hk2 => h k (by omega))
    simpa [get_db_connection, List.range_eq_range'] using this
  · intro hjlt h hj
    have := connGo_first_ok oracle j (max_retries - 1) hj (by omega) max_retries 0
      (by omega) (by omega) (fun k _ hk2 => h k hk2)
    simpa [get_db_connection, List.range_eq_range'] using this

/-- Witness for C6 at concrete inputs: with every attempt failing,
5 attempts produce backoffs 1, 2, 4, 8 and no connection; with the first
success on attempt 2, the backoffs are 1, 2 and the connection of attempt 2
is returned. -/
theorem get_db_connection_spec_witness :
    get_db_connection (fun _ => ConnAttempt.err) 5 =
      (none, (List.range (5 - 1)).map (fun i => 2 ^ i))
    ∧ get_db_connection (fun k => if k < 2 then ConnAttempt.err else ConnAttempt.ok true) 5 =
      (some 2, (List.range 2).map (fun i => 2 ^ i)) :=
  ⟨(get_db_connection_spec (fun _ => ConnAttempt.err) 5 0).1 (fun _ _ => rfl)
  , (get_db_connection_spec (fun k => if k < 2 then ConnAttempt.err else ConnAttempt.ok true) 5 2).2.1
      (by omega) (fun k hk => by simp [hk]) (by simp)⟩

/-- Concrete runtime with the optional PyPDF2 library unavailable (the
module load at main.py lines 17-20 failed). -/
def envNoPdf : ExtractEnv :=
  { pypdf2 := false, docxLib := false, readBytes := .ok []
  , pdfParse := fun _ => .error (), docxParse := fun _ => .error ()
  , csvParse := fun _ => .error (), jsonParse := fun _ => .error ()
  , decodeText := fun _ => "" }

/-- Counterexample to claim C3: with PyPDF2 unavailable, extracting a .pdf
file does not return the placeholder of a parse failure; the dispatch guard
at main.py line 324 skips the pdf branch entirely and the function falls
through to the generic unsupported-type placeholder of line 375. -/
theorem pdf_lib_missing_cex :
    extract_text_from_file envNoPdf ".pdf" ≠ "PDF content could not be extracted"
    ∧ extract_text_from_file envNoPdf ".pdf" = "File type not supported for text extraction" :=
  ⟨by decide, by decide⟩

/-- Claim C3 as amended: when the PDF extraction capability is unavailable
in the runtime, extracting a .pdf file returns the placeholder for an
unsupported type, "File type not supported for text extraction" (not the
parse-failure placeholder), and does not raise. -/
theorem pdf_lib_missing_amended (env : ExtractEnv) (h : env.pypdf2 = false) :
    extract_text_from_file env ".pdf" = "File type not supported for text extraction" := by
  unfold extract_text_from_file extract_text_body
  have h1 : ¬ ((".pdf" : String) = ".txt" ∨ (".pdf" : String) = ".md") := by decide
  have h2 : ¬ ((".pdf" : String) = ".pdf" ∧ env.pypdf2 = true) := fun hc => by
    rw [h] at hc
    exact Bool.false_ne_true hc.2
  have h3 : ¬ ((".pdf" : String) = ".docx" ∧ env.docxLib = true) := fun hc =>
    absurd hc.1 (by decide)
  have h4 : ¬ ((".pdf" : String) = ".csv") := by decide
  have h5 : ¬ ((".pdf" : String) = ".json") := by decide
  rw [if_neg h1, if_neg h2, if_neg h3, if_neg h4, if_neg h5]

/-- Witness for the amended C3 at a concrete runtime. -/
theorem pdf_lib_missing_amended_witness :
    envNoPdf.pypdf2 = false
    ∧ extract_text_from_file envNoPdf ".pdf" = "File type not supported for text extraction" :=
  ⟨rfl, pdf_lib_missing_amended envNoPdf rfl⟩

/-- Claim C4: for every runtime environment and extension string the text
extractor returns a string to its caller and never lets an exception
escape: the outer handler converts any exception escaping the dispatch body
into the final placeholder, and every returned string is either the
genuinely extracted text of the matching branch or one of the fixed
human-readable placeholder strings. -/
theorem extract_never_raises_spec (env : ExtractEnv) (ext : String) :
    ((∃ s, extract_text_body env ext = .ok s ∧ extract_text_from_file env ext = s)
      ∨ (∃ e, extract_text_body env ext = .error e
          ∧ extract_text_from_file env ext = "Text extraction failed"))
    ∧ (extract_text_from_file env ext = genuine_text env ext
      ∨ extract_text_from_file env ext ∈ placeholders) := by
  constructor
  · cases h : extract_text_body env ext with
    | ok s => exact Or.inl ⟨s, rfl, by simp [extract_text_from_file, h]⟩
    | error e => exact Or.inr ⟨e, rfl, by simp [extract_text_from_file, h]⟩
  · unfold extract_text_from_file extract_text_body genuine_text
    by_cases h1 : ext = ".txt" ∨ ext = ".md"
    · rw [if_pos h1, if_pos h1]
      cases hrb : env.readBytes with
      | ok b => exact Or.inl rfl
      | error e => exact Or.inr (by simp [placeholders])
    · rw [if_neg h1, if_neg h1]
      by_cases h2 : ext = ".pdf" ∧ env.pypdf2 = true
      · rw [if_pos h2, if_pos h2]
        cases hrb : env.readBytes.bind env.pdfParse with
        | ok pages => exact Or.inl rfl
        | error e => exact Or.inr (by simp [placeholders])
      · rw [if_neg h2, if_neg h2]
        by_cases h3 : ext = ".docx" ∧ env.docxLib = true
        · rw [if_pos h3, if_pos h3]
          cases hrb : env.readBytes.bind env.docxParse with
          | ok paras => exact Or.inl rfl
          | error e => exact Or.inr (by simp [placeholders])
        · rw [if_neg h3, if_neg h3]
          by_cases h4 : ext = ".csv"
          · rw [if_pos h4, if_pos h4]
            cases hrb : env.readBytes.bind env.csvParse with
            | ok rows => exact Or.inl rfl
            | error e => exact Or.inr (by simp [placeholders])
          · rw [if_neg h4, if_neg h4]
            by_cases h5 : ext = ".json"
            · rw [if_pos h5, if_pos h5]
              cases hrb : env.readBytes.bind env.jsonParse with
              | ok v => exact Or.inl rfl
              | error e => exact Or.inr (by simp [placeholders])
            · rw [if_neg h5, if_neg h5]
              exact Or.inr (by simp [placeholders])

/-- Helper: the .json branch of the extractor in closed form, from the
dispatch at main.py lines 362-371. -/
theorem extract_json_eq (env : ExtractEnv) :
    extract_text_from_file env ".json" =
      match env.readBytes.bind env.jsonParse with
      | .ok v => jsonDumps2 v
      | .error _ => "JSON content could not be extracted" := by
  unfold extract_text_from_file extract_text_body
  have h1 : ¬ ((".json" : String) = ".txt" ∨ (".json" : String) = ".md") := by decide
  have h2 : ¬ ((".json" : String) = ".pdf" ∧ env.pypdf2 = true) := fun hc =>
    absurd hc.1 (by decide)
  have h3 : ¬ ((".json" : String) = ".docx" ∧ env.docxLib = true) := fun hc =>
    absurd hc.1 (by decide)
  have h4 : ¬ ((".json" : String) = ".csv") := by decide
  rw [if_neg h1, if_neg h2, if_neg h3, if_neg h4, if_pos rfl]
  cases hres : env.readBytes.bind env.jsonParse with
  | ok v => rfl
  | error e => rfl

/-- Claim C7: a well-formed JSON file extracts to the canonical two-space
indented re-serialization of its parsed value, so the extracted text
depends only on the parsed value and not on the whitespace of the original
bytes; a parse failure yields the JSON placeholder. -/
theorem json_canonical_spec (env env2 : ExtractEnv) (v : JsonVal) :
    (env.readBytes.bind env.jsonParse = .ok v →
      extract_text_from_file env ".json" = jsonDumps2 v)
    ∧ (∀ e, env.readBytes.bind env.jsonParse = .error e →
      extract_text_from_file env ".json" = "JSON content could not be extracted")
    ∧ (env.readBytes.bind env.jsonParse = .ok v →
       env2.readBytes.bind env2.jsonParse = .ok v →
      extract_text_from_file env ".json" = extract_text_from_file env2 ".json") := by
  refine ⟨?_, ?_, ?_⟩
  · intro h
    rw [extract_json_eq, h]
  · intro e h
    rw [extract_json_eq, h]
  · intro hone htwo
    rw [extract_json_eq, hone, extract_json_eq env2, htwo]

/-- Parsed value of the JSON document with a single key a mapped to 1. -/
def jsonValW : JsonVal := .objCons "a" (.jnum "1") .objNil

/-- Concrete runtime whose stored file holds the bytes of the compact JSON
document and whose parser returns its value. -/
def envJsonW : ExtractEnv :=
  { pypdf2 := false, docxLib := false
  , readBytes := .ok [123, 34, 97, 34, 58, 49, 125]
  , pdfParse := fun _ => .error (), docxParse := fun _ => .error ()
  , csvParse := fun _ => .error (), jsonParse := fun _ => .ok jsonValW
  , decodeText := fun _ => "" }

/-- Witness for C7: the compact document with key a and value 1 extracts to
its canonical two-space-indented pretty-print. -/
theorem json_canonical_spec_witness :
    extract_text_from_file envJsonW ".json" = jsonDumps2 jsonValW
    ∧ jsonDumps2 jsonValW = "\x7b\n  \"a\": 1\n\x7d" :=
  ⟨(json_canonical_spec envJsonW envJsonW jsonValW).1 rfl, by decide⟩

/-- Content-store path the batch loop generates for the k-th file: the
upload directory, the uuid of that call and the lowercased extension. -/
def filePathOf (env : UpEnv) (k : Nat) (f : InFile) : String :=
  UPLOAD_DIR ++ "/" ++ (env.uuidName k ++ strLower (pathSuffix f.filename))

/-- Metadata row the k-th file of a batch inserts when it fully commits. -/
def commitRow (env : UpEnv) (sid : String) (k : Nat) (f : InFile) (st : UploadState) : Row :=
  { id := st.db.nextId, session_id := sid
  , filename := env.uuidName k ++ strLower (pathSuffix f.filename)
  , original_name := f.filename
  , file_type := strLower (pathSuffix f.filename)
  , file_size := f.content.length
  , file_path := filePathOf env k f
  , extracted_text := env.extracted k
  , upload_date := env.timeAt k }

/-- Summary dict corresponding to a stored metadata row. -/
def rowSummary (r : Row) : Summary :=
  { id := r.id, filename := r.filename, original_name := r.original_name
  , file_type := r.file_type, file_size := r.file_size
  , has_text := optBool r.extracted_text, file_path := r.file_path }

/-- Full commit of one valid file: bytes written to the content store and
the metadata row inserted, with its summary. -/
def commitFile (env : UpEnv) (sid : String) (k : Nat) (f : InFile) (st : UploadState) :
    UploadState × Summary :=
  ( ⟨⟨st.db.rows ++ [commitRow env sid k f st], st.db.nextId + 1⟩
    , diskWrite st.disk (filePathOf env k f) f.content⟩
  , rowSummary (commitRow env sid k f st) )

/-- Sequential full commit of a list of files starting at call index k. -/
def commitList (env : UpEnv) (sid : String) : Nat → List InFile → UploadState →
    UploadState × List Summary
  | _, [], st => (st, [])
  | k, f :: fs, st =>
    let c := commitFile env sid k f st
    let r := commitList env sid (k + 1) fs c.1
    (r.1, c.2 :: r.2)

/-- A file that passes both validations and whose metadata insert
succeeds. -/
def fileOk (env : UpEnv) (k : Nat) (f : InFile) : Prop :=
  f.content.length ≤ MAX_FILE_SIZE
  ∧ strLower (pathSuffix f.filename) ∈ ALLOWED_EXTENSIONS
  ∧ env.insertOk k = true

instance (env : UpEnv) (k : Nat) (f : InFile) : Decidable (fileOk env k f) :=
  inferInstanceAs (Decidable (_ ∧ _ ∧ _))

/-- Unfolding step of the batch loop: an oversized file aborts with the
size validation error before any write. -/
theorem uploadLoop_cons_tooLarge (env : UpEnv) (sid : String) (k : Nat) (f : InFile)
    (rest : List InFile) (st : UploadState) (acc : List Summary)
    (h : f.content.length > MAX_FILE_SIZE) :
    uploadLoop env sid (f :: rest) k st acc = (st, acc, some (.tooLarge f.filename)) := by
  simp [uploadLoop, h]

/-- Unfolding step of the batch loop: a disallowed extension aborts with the
type validation error before any write. -/
theorem uploadLoop_cons_badType (env : UpEnv) (sid : String) (k : Nat) (f : InFile)
    (rest : List InFile) (st : UploadState) (acc : List Summary)
    (h1 : f.content.length ≤ MAX_FILE_SIZE)
    (h2 : strLower (pathSuffix f.filename) ∉ ALLOWED_EXTENSIONS) :
    uploadLoop env sid (f :: rest) k st acc =
      (st, acc, some (.badType (strLower (pathSuffix f.filename)))) := by
  simp [uploadLoop, Nat.not_lt.mpr h1, h2]

/-- Unfolding step of the batch loop: a valid file whose metadata insert
fails leaves its bytes on disk and aborts with the storage error. -/
theorem uploadLoop_cons_storeFail (env : UpEnv) (sid : String) (k : Nat) (f : InFile)
    (rest : List InFile) (st : UploadState) (acc : List Summary)
    (h1 : f.content.length ≤ MAX_FILE_SIZE)
    (h2 : strLower (pathSuffix f.filename) ∈ ALLOWED_EXTENSIONS)
    (h3 : env.insertOk k = false) :
    uploadLoop env sid (f :: rest) k st acc =
      (⟨st.db, diskWrite st.disk (filePathOf env k f) f.content⟩, acc, some .storeFailed) := by
  simp [uploadLoop, store_file_info, filePathOf, Nat.not_lt.mpr h1, h2, h3]

/-- Unfolding step of the batch loop: a valid file whose insert succeeds is
fully committed and the loop continues with the next file. -/
theorem uploadLoop_cons_ok (env : UpEnv) (sid : String) (k : Nat) (f : InFile)
    (rest : List InFile) (st : UploadState) (acc : List Summary)
    (h : fileOk env k f) :
    uploadLoop env sid (f :: rest) k st acc =
      uploadLoop env sid rest (k + 1) (commitFile env sid k f st).1
        (acc ++ [(commitFile env sid k f st).2]) := by
  obtain ⟨h1, h2, h3⟩ := h
  simp [uploadLoop, store_file_info, commitFile, commitRow, rowSummary, filePathOf,
    Nat.not_lt.mpr h1, h2, h3]

/-- Helper: a run of the batch loop only ever appends rows to the metadata
store, and the accumulated summaries are exactly the summaries of the
appended rows, in order. -/
theorem uploadLoop_rows (env : UpEnv) (sid : String) :
    ∀ (files : List InFile) (k : Nat) (st : UploadState) (acc : List Summary),
    ∃ newRows : List Row,
      (uploadLoop env sid files k st acc).1.db.rows = st.db.rows ++ newRows
      ∧ (uploadLoop env sid files k st acc).2.1 = acc ++ newRows.map rowSummary := by
  intro files
  induction files with
  | nil =>
    intro k st acc
    exact ⟨[], by simp [uploadLoop], by simp [uploadLoop]⟩
  | cons f fs ih =>
    intro k st acc
    by_cases h1 : f.content.length > MAX_FILE_SIZE
    · rw [uploadLoop_cons_tooLarge env sid k f fs st acc h1]
      exact ⟨[], by simp, by simp⟩
    · have h1le : f.content.length ≤ MAX_FILE_SIZE := Nat.not_lt.mp h1
      by_cases h2 : strLower (pathSuffix f.filename) ∈ ALLOWED_EXTENSIONS
      · by_cases h3 : env.insertOk k = true
        · rw [uploadLoop_cons_ok env sid k f fs st acc ⟨h1le, h2, h3⟩]
          obtain ⟨nr, ha, hb⟩ :=
            ih (k + 1) (commitFile env sid k f st).1 (acc ++ [(commitFile env sid k f st).2])
          refine ⟨commitRow env sid k f st :: nr, ?_, ?_⟩
          · rw [ha]
            simp [commitFile]
          · rw [hb]
            simp [commitFile]
        · have h3f : env.insertOk k = false := by
            revert h3
            cases env.insertOk k <;> simp
          rw [uploadLoop_cons_storeFail env sid k f fs st acc h1le h2 h3f]
          exact ⟨[], by simp, by simp⟩
      · rw [uploadLoop_cons_badType env sid k f fs st acc h1le h2]
        exact ⟨[], by simp, by simp⟩

/-- Helper: the batch loop never inserts a row whose size exceeds the
configured maximum, because the size validation precedes the insert. -/
theorem uploadLoop_size_le (env : UpEnv) (sid : String) :
    ∀ (files : List InFile) (k : Nat) (st : UploadState) (acc : List Summary),
    (∀ r ∈ st.db.rows, r.file_size ≤ MAX_FILE_SIZE) →
    ∀ r ∈ (uploadLoop env sid files k st acc).1.db.rows, r.file_size ≤ MAX_FILE_SIZE := by
  intro files
  induction files with
  | nil =>
    intro k st acc h
    simpa [uploadLoop] using h
  | cons f fs ih =>
    intro k st acc h
    by_cases h1 : f.content.length > MAX_FILE_SIZE
    · rw [uploadLoop_cons_tooLarge env sid k f fs st acc h1]
      exact h
    · have h1le : f.content.length ≤ MAX_FILE_SIZE := Nat.not_lt.mp h1
      by_cases h2 : strLower (pathSuffix f.filename) ∈ ALLOWED_EXTENSIONS
      · by_cases h3 : env.insertOk k = true
        · rw [uploadLoop_cons_ok env sid k f fs st acc ⟨h1le, h2, h3⟩]
          apply ih
          intro r hr
          rcases (by simpa [commitFile] using hr : r ∈ st.db.rows ∨ r = commitRow env sid k f st) with hr1 | hr1
          · exact h r hr1
          · rw [hr1]
            simpa [commitRow] using h1le
        · have h3f : env.insertOk k = false := by
            revert h3
            cases env.insertOk k <;> simp
          rw [uploadLoop_cons_storeFail env sid k f fs st acc h1le h2 h3f]
          exact h
      · rw [uploadLoop_cons_badType env sid k f fs st acc h1le h2]
        exact h

/-- Helper: a prefix of fully successful files commits all of them and the
loop resumes after the prefix with the advanced call counter, the committed
state and the accumulated summaries. -/
theorem uploadLoop_append_ok (env : UpEnv) (sid : String) :
    ∀ (done rest : List InFile) (k : Nat) (st : UploadState) (acc : List Summary),
    (∀ i (hi : i < done.length), fileOk env (k + i) (done.get ⟨i, hi⟩)) →
    uploadLoop env sid (done ++ rest) k st acc =
      uploadLoop env sid rest (k + done.length) (commitList env sid k done st).1
        (acc ++ (commitList env sid k done st).2) := by
  intro done
  induction done with
  | nil =>
    intro rest k st acc _
    simp [commitList]
  | cons f fs ih =>
    intro rest k st acc h
    have h0 : fileOk env k f := by simpa using h 0 (by simp)
    rw [List.cons_append, uploadLoop_cons_ok env sid k f (fs ++ rest) st acc h0]
    have hfs : ∀ i (hi : i < fs.length), fileOk env (k + 1 + i) (fs.get ⟨i, hi⟩) := by
      intro i hi
      have hstep := h (i + 1) (by simpa using Nat.succ_lt_succ hi)
      have heq : k + (i + 1) = k + 1 + i := by omega
      rw [heq] at hstep
      simpa using hstep
    rw [ih rest (k + 1) (commitFile env sid k f st).1 (acc ++ [(commitFile env sid k f st).2]) hfs]
    have hk : k + 1 + fs.length = k + (f :: fs).length := by simp; omega
    rw [hk]
    simp [commitList]

/-- Helper: looking up the path just written finds the new content. -/
theorem diskLookup_diskWrite_self (d : Disk) (p : String) (c : List Nat) :
    diskLookup (diskWrite d p c) p = some c := by
  simp [diskLookup, diskWrite]

/-- Helper: a write does not affect the lookup of a different path. -/
theorem diskLookup_diskWrite_ne (d : Disk) (p : String) (c : List Nat) (q : String)
    (h : q ≠ p) : diskLookup (diskWrite d p c) q = diskLookup d q := by
  simp only [diskLookup, diskWrite]
  rw [List.find?_cons_of_neg]
  simp only [beq_iff_eq]
  exact fun hpq => h hpq.symm

/-- Helper: find? for one path is unchanged by filtering out another. -/
theorem find?_filter_ne (p q : String) (h : q ≠ p) :
    ∀ d : Disk, (d.filter (fun e => e.1 != p)).find? (fun e => e.1 == q) =
      d.find? (fun e => e.1 == q) := by
  intro d
  induction d with
  | nil => rfl
  | cons e es ih =>
    by_cases he : e.1 = p
    · have h1 : (e.1 != p) = false := by simp [he]
      have h2 : (e.1 == q) = false := by
        rw [he]
        exact beq_eq_false_iff_ne.mpr (Ne.symm h)
      simp [List.filter_cons, List.find?_cons, h1, h2, ih]
    · have h1 : (e.1 != p) = true := bne_iff_ne.mpr he
      by_cases hq : e.1 = q
      · have h2 : (e.1 == q) = true := beq_iff_eq.mpr hq
        simp [List.filter_cons, List.find?_cons, h1, h2]
      · have h2 : (e.1 == q) = false := beq_eq_false_iff_ne.mpr hq
        simp [List.filter_cons, List.find?_cons, h1, h2, ih]

/-- Helper: removing a path makes its lookup absent. -/
theorem diskLookup_diskRemove_self (d : Disk) (p : String) :
    diskLookup (diskRemove d p) p = none := by
  simp only [diskLookup, diskRemove, Option.map_eq_none']
  rw [List.find?_eq_none]
  intro e he
  have h1 : (e.1 != p) = true := (List.mem_filter.mp he).2
  simp only [beq_iff_eq]
  exact bne_iff_ne.mp h1

/-- Helper: removing a path does not affect the lookup of another path. -/
theorem diskLookup_diskRemove_ne (d : Disk) (p q : String) (h : q ≠ p) :
    diskLookup (diskRemove d p) q = diskLookup d q := by
  simp only [diskLookup, diskRemove]
  rw [find?_filter_ne p q h d]

/-- Helper: removing a list of paths does not affect the lookup of a path
outside the list. -/
theorem removeAll_lookup_frame :
    ∀ (ps : List String) (d : Disk) (p : String), p ∉ ps →
    diskLookup (ps.foldl diskRemove d) p = diskLookup d p := by
  intro ps
  induction ps with
  | nil =>
    intro d p _
    rfl
  | cons q qs ih =>
    intro d p h
    simp only [List.foldl_cons]
    have hq : p ≠ q := fun he => h (he ▸ List.mem_cons_self q qs)
    rw [ih (diskRemove d q) p (fun hm => h (List.mem_cons_of_mem q hm))]
    exact diskLookup_diskRemove_ne d q p hq

/-- Helper: after removing a list of paths, every path of the list is
absent. -/
theorem removeAll_lookup_none :
    ∀ (ps : List String) (d : Disk) (p : String), p ∈ ps →
    diskLookup (ps.foldl diskRemove d) p = none := by
  intro ps
  induction ps with
  | nil =>
    intro d p h
    cases h
  | cons q qs ih =>
    intro d p h
    simp only [List.foldl_cons]
    by_cases hpq : p ∈ qs
    · exact ih (diskRemove d q) p hpq
    · have hpq2 : p = q := by
        rcases List.mem_cons.mp h with h1 | h1
        · exact h1
        · exact absurd h1 hpq
      subst hpq2
      rw [removeAll_lookup_frame qs (diskRemove d p) p hpq]
      exact diskLookup_diskRemove_self d p

/-- Helper: the compensation loop of upload_files folds diskRemove over the
file paths of the accumulated summaries. -/
theorem cleanup_eq_foldl_paths (acc : List Summary) (d : Disk) :
    acc.foldl (fun d1 s => diskRemove d1 s.file_path) d =
      (acc.map (fun s => s.file_path)).foldl diskRemove d := by
  rw [List.foldl_map]

/-- Helper: the metadata store a batch leaves behind is the one the loop
produced; the compensation handler only touches the content store. -/
theorem upload_files_db (env : UpEnv) (sid : String) (files : List InFile)
    (st0 : UploadState) :
    (upload_files env sid files st0).1.db = (uploadLoop env sid files 0 st0 []).1.db := by
  unfold upload_files
  rcases h : uploadLoop env sid files 0 st0 [] with ⟨st, acc, e⟩
  cases e <;> rfl

/-- Claim C1 as amended: when any file of a batch fails validation or
storage, the caller receives one status-500 error for the whole batch and
the content-store objects of every file already fully committed earlier in
that batch have been removed; the metadata rows inserted for those committed
files, however, remain in the store (the compensation loop deletes only the
disk objects, never the rows). -/
theorem upload_batch_failure_spec (env : UpEnv) (sid : String) (files : List InFile)
    (st0 st : UploadState) (acc : List Summary) (e : UpErr)
    (h : uploadLoop env sid files 0 st0 [] = (st, acc, some e)) :
    (upload_files env sid files st0).2 = .error (500, upErrMsg e)
    ∧ (∀ s ∈ acc, diskLookup (upload_files env sid files st0).1.disk s.file_path = none)
    ∧ (∃ newRows, (upload_files env sid files st0).1.db.rows = st0.db.rows ++ newRows
        ∧ acc = newRows.map rowSummary) := by
  have hu : upload_files env sid files st0 =
      ({ st with disk := acc.foldl (fun d1 s => diskRemove d1 s.file_path) st.disk }
      , .error (500, upErrMsg e)) := by
    unfold upload_files
    rw [h]
  have hdisk : (upload_files env sid files st0).1.disk =
      (acc.map (fun s => s.file_path)).foldl diskRemove st.disk := by
    rw [hu]
    exact cleanup_eq_foldl_paths acc st.disk
  have hdb : (upload_files env sid files st0).1.db = st.db := by
    rw [hu]
  refine ⟨by rw [hu], ?_, ?_⟩
  · intro s hs
    rw [hdisk]
    exact removeAll_lookup_none _ _ _ (List.mem_map_of_mem _ hs)
  · obtain ⟨nr, ha, hb⟩ := uploadLoop_rows env sid files 0 st0 []
    rw [h] at ha hb
    refine ⟨nr, ?_, by simpa using hb⟩
    rw [hdb]
    exact ha

/-- Concrete batch environment: sequential uuid names, every insert
succeeds, every extraction returns the text hello. -/
def envC : UpEnv :=
  { uuidName := fun k => if k == 0 then "u0" else "u1"
  , insertOk := fun _ => true
  , extracted := fun _ => some "hello"
  , timeAt := fun k => k }

/-- Empty initial state: no rows, auto-increment at 1, empty content
store. -/
def st0C : UploadState := ⟨⟨[], 1⟩, []⟩

/-- Counterexample to claim C1 as stated: in the two-file batch whose first
file is a valid .txt and whose second file has the disallowed extension
.exe, the call fails with one batch error and file 1 content-store object is
removed, yet one metadata row (file 1) still exists, so the batch does not
end with zero rows. -/
theorem upload_rows_remain_cex :
    (upload_files envC "s" [⟨"a.txt", [104]⟩, ⟨"b.exe", [1]⟩] st0C).2 =
      .error (500, upErrMsg (.badType ".exe"))
    ∧ (upload_files envC "s" [⟨"a.txt", [104]⟩, ⟨"b.exe", [1]⟩] st0C).1.db.rows.length = 1
    ∧ diskLookup (upload_files envC "s" [⟨"a.txt", [104]⟩, ⟨"b.exe", [1]⟩] st0C).1.disk
        "/app/uploads/u0.txt" = none :=
  ⟨by decide, by decide, by decide⟩

/-- Metadata row file 1 of the two-file counterexample batch commits. -/
def rowW : Row :=
  { id := 1, session_id := "s", filename := "u0.txt", original_name := "a.txt"
  , file_type := ".txt", file_size := 1, file_path := "/app/uploads/u0.txt"
  , extracted_text := some "hello", upload_date := 0 }

/-- Summary of that committed row. -/
def sumW : Summary :=
  { id := 1, filename := "u0.txt", original_name := "a.txt", file_type := ".txt"
  , file_size := 1, has_text := true, file_path := "/app/uploads/u0.txt" }

/-- State after file 1 of the two-file counterexample batch committed. -/
def stW : UploadState := ⟨⟨[rowW], 2⟩, [("/app/uploads/u0.txt", [104])]⟩

/-- Witness for the amended C1 on the concrete two-file batch. -/
theorem upload_batch_failure_spec_witness :
    (upload_files envC "s" [⟨"a.txt", [104]⟩, ⟨"b.exe", [1]⟩] st0C).2 =
      .error (500, upErrMsg (.badType ".exe"))
    ∧ (∀ s ∈ [sumW],
        diskLookup (upload_files envC "s" [⟨"a.txt", [104]⟩, ⟨"b.exe", [1]⟩] st0C).1.disk
          s.file_path = none)
    ∧ (∃ newRows,
        (upload_files envC "s" [⟨"a.txt", [104]⟩, ⟨"b.exe", [1]⟩] st0C).1.db.rows =
          st0C.db.rows ++ newRows
        ∧ [sumW] = newRows.map rowSummary) :=
  upload_batch_failure_spec envC "s" [⟨"a.txt", [104]⟩, ⟨"b.exe", [1]⟩] st0C stW [sumW]
    (.badType ".exe") (by decide)

/-- Counterexample to claim C5 as stated: a zero-byte .txt upload is
accepted and stores a metadata row with file_size equal to 0, violating the
strict lower bound 0 < file_size. -/
theorem file_size_zero_cex :
    (upload_files envC "s" [⟨"e.txt", []⟩] st0C).2.isOk = true
    ∧ (upload_files envC "s" [⟨"e.txt", []⟩] st0C).1.db.rows.map (fun r => r.file_size) = [0] :=
  ⟨by decide, by decide⟩

/-- Claim C5 as amended: every record the upload pipeline stores satisfies
file_size ≤ MAX_FILE_SIZE (strict positivity fails: empty files are
accepted), and uploading a single file of size MAX_FILE_SIZE + 1 is rejected
with the size-validation error, leaving the metadata store and the content
store exactly as they were. -/
theorem file_size_invariant_spec (env : UpEnv) (sid : String) (files : List InFile)
    (st0 : UploadState) (f : InFile)
    (h0 : ∀ r ∈ st0.db.rows, r.file_size ≤ MAX_FILE_SIZE) :
    (∀ r ∈ (upload_files env sid files st0).1.db.rows, r.file_size ≤ MAX_FILE_SIZE)
    ∧ (f.content.length = MAX_FILE_SIZE + 1 →
        (upload_files env sid [f] st0).1 = st0
        ∧ (upload_files env sid [f] st0).2 =
            .error (500, upErrMsg (.tooLarge f.filename))) := by
  constructor
  · intro r hr
    rw [upload_files_db] at hr
    exact uploadLoop_size_le env sid files 0 st0 [] h0 r hr
  · intro hlen
    have hgt : f.content.length > MAX_FILE_SIZE := by omega
    have hloop : uploadLoop env sid [f] 0 st0 [] = (st0, [], some (.tooLarge f.filename)) :=
      uploadLoop_cons_tooLarge env sid 0 f [] st0 [] hgt
    constructor
    · unfold upload_files
      rw [hloop]
      rfl
    · unfold upload_files
      rw [hloop]

/-- One-byte-over-the-limit file. -/
def bigF : InFile := ⟨"big.txt", List.replicate (MAX_FILE_SIZE + 1) 0⟩

/-- Witness for the amended C5: an empty initial store keeps the size bound
through an upload, and the oversized file is rejected without any state
change. -/
theorem file_size_invariant_spec_witness :
    (∀ r ∈ st0C.db.rows, r.file_size ≤ MAX_FILE_SIZE)
    ∧ (∀ r ∈ (upload_files envC "s" [⟨"a.txt", [104]⟩] st0C).1.db.rows,
        r.file_size ≤ MAX_FILE_SIZE)
    ∧ ((upload_files envC "s" [bigF] st0C).1 = st0C
        ∧ (upload_files envC "s" [bigF] st0C).2 =
            .error (500, upErrMsg (.tooLarge bigF.filename))) := by
  have h0 : ∀ r ∈ st0C.db.rows, r.file_size ≤ MAX_FILE_SIZE := by decide
  have H := file_size_invariant_spec envC "s" [⟨"a.txt", [104]⟩] st0C bigF h0
  exact ⟨h0, H.1, H.2 (by simp [bigF])⟩

/-- Claim C9: the extension is lowercased before it is validated against the
supported set and before it is stored, so a file whose lowercased suffix is
supported is accepted, and both the stored row and the returned summary
record the lowercase form as the file type. -/
theorem extension_lowercased_spec (env : UpEnv) (sid : String) (f : InFile)
    (st0 : UploadState)
    (hsz : f.content.length ≤ MAX_FILE_SIZE)
    (hext : strLower (pathSuffix f.filename) ∈ ALLOWED_EXTENSIONS)
    (hins : env.insertOk 0 = true) :
    (upload_files env sid [f] st0).2 = .ok [rowSummary (commitRow env sid 0 f st0)]
    ∧ (upload_files env sid [f] st0).1.db.rows = st0.db.rows ++ [commitRow env sid 0 f st0]
    ∧ (commitRow env sid 0 f st0).file_type = strLower (pathSuffix f.filename)
    ∧ (rowSummary (commitRow env sid 0 f st0)).file_type = strLower (pathSuffix f.filename) := by
  have hloop : uploadLoop env sid [f] 0 st0 [] =
      ((commitFile env sid 0 f st0).1, [(commitFile env sid 0 f st0).2], none) := by
    rw [uploadLoop_cons_ok env sid 0 f [] st0 [] ⟨hsz, hext, hins⟩]
    rfl
  refine ⟨?_, ?_, rfl, rfl⟩
  · unfold upload_files
    rw [hloop]
    rfl
  · unfold upload_files
    rw [hloop]
    rfl

/-- Witness for C9: a file named report.TXT is accepted and its recorded
file type is .txt, the lowercase form of its suffix. -/
theorem extension_lowercased_spec_witness :
    ((upload_files envC "s" [⟨"report.TXT", [104, 105]⟩] st0C).2 =
        .ok [rowSummary (commitRow envC "s" 0 ⟨"report.TXT", [104, 105]⟩ st0C)]
      ∧ (upload_files envC "s" [⟨"report.TXT", [104, 105]⟩] st0C).1.db.rows =
        st0C.db.rows ++ [commitRow envC "s" 0 ⟨"report.TXT", [104, 105]⟩ st0C]
      ∧ (commitRow envC "s" 0 ⟨"report.TXT", [104, 105]⟩ st0C).file_type =
        strLower (pathSuffix "report.TXT")
      ∧ (rowSummary (commitRow envC "s" 0 ⟨"report.TXT", [104, 105]⟩ st0C)).file_type =
        strLower (pathSuffix "report.TXT"))
    ∧ strLower (pathSuffix "report.TXT") = ".txt" :=
  ⟨extension_lowercased_spec envC "s" ⟨"report.TXT", [104, 105]⟩ st0C
      (by decide) (by decide) rfl
  , by decide⟩

/-- Claim C10: when a batch fails mid-way, the cleanup removes exactly the
content-store paths of the files whose metadata insert completed (the ones
in the accumulated summary list): those paths are absent afterwards, every
other path is untouched, and in particular when the failing file has already
written its bytes but its insert failed, its own disk object survives the
cleanup and remains in the content store. -/
theorem cleanup_exact_spec (env : UpEnv) (sid : String) (done : List InFile) (fbad : InFile)
    (rest : List InFile) (st0 : UploadState)
    (hdone : ∀ i (hi : i < done.length), fileOk env i (done.get ⟨i, hi⟩))
    (hsz : fbad.content.length ≤ MAX_FILE_SIZE)
    (hext : strLower (pathSuffix fbad.filename) ∈ ALLOWED_EXTENSIONS)
    (hins : env.insertOk done.length = false)
    (hfresh : filePathOf env done.length fbad ∉
        (commitList env sid 0 done st0).2.map (fun s => s.file_path)) :
    ((upload_files env sid (done ++ fbad :: rest) st0).2 = .error (500, upErrMsg .storeFailed))
    ∧ (∀ s ∈ (commitList env sid 0 done st0).2,
        diskLookup (upload_files env sid (done ++ fbad :: rest) st0).1.disk s.file_path = none)
    ∧ diskLookup (upload_files env sid (done ++ fbad :: rest) st0).1.disk
        (filePathOf env done.length fbad) = some fbad.content
    ∧ (∀ p, p ∉ (commitList env sid 0 done st0).2.map (fun s => s.file_path) →
        diskLookup (upload_files env sid (done ++ fbad :: rest) st0).1.disk p =
          diskLookup (diskWrite (commitList env sid 0 done st0).1.disk
            (filePathOf env done.length fbad) fbad.content) p) := by
  have hdone0 : ∀ i (hi : i < done.length), fileOk env (0 + i) (done.get ⟨i, hi⟩) := by
    intro i hi
    simpa using hdone i hi
  have hpre := uploadLoop_append_ok env sid done (fbad :: rest) 0 st0 [] hdone0
  rw [Nat.zero_add, List.nil_append] at hpre
  have hstep := uploadLoop_cons_storeFail env sid done.length fbad rest
    (commitList env sid 0 done st0).1 (commitList env sid 0 done st0).2 hsz hext hins
  have hloop : uploadLoop env sid (done ++ fbad :: rest) 0 st0 [] =
      (⟨(commitList env sid 0 done st0).1.db
        , diskWrite (commitList env sid 0 done st0).1.disk
            (filePathOf env done.length fbad) fbad.content⟩
      , (commitList env sid 0 done st0).2, some .storeFailed) := by
    rw [hpre, hstep]
  have hu : upload_files env sid (done ++ fbad :: rest) st0 =
      ( ⟨(commitList env sid 0 done st0).1.db
        , ((commitList env sid 0 done st0).2).foldl
            (fun d1 (s : Summary) => diskRemove d1 s.file_path)
            (diskWrite (commitList env sid 0 done st0).1.disk
              (filePathOf env done.length fbad) fbad.content)⟩
      , .error (500, upErrMsg .storeFailed) ) := by
    unfold upload_files
    rw [hloop]
  have hdisk : (upload_files env sid (done ++ fbad :: rest) st0).1.disk =
      (((commitList env sid 0 done st0).2).map (fun s => s.file_path)).foldl diskRemove
        (diskWrite (commitList env sid 0 done st0).1.disk
          (filePathOf env done.length fbad) fbad.content) := by
    rw [hu]
    exact cleanup_eq_foldl_paths _ _
  refine ⟨by rw [hu], ?_, ?_, ?_⟩
  · intro s hs
    rw [hdisk]
    exact removeAll_lookup_none _ _ _ (List.mem_map_of_mem _ hs)
  · rw [hdisk]
    rw [removeAll_lookup_frame _ _ _ hfresh]
    exact diskLookup_diskWrite_self _ _ _
  · intro p hp
    rw [hdisk]
    exact removeAll_lookup_frame _ _ _ hp

/-- Concrete batch environment whose second insert fails: the first file
commits fully, the second reaches the metadata insert and fails there. -/
def envC2 : UpEnv :=
  { uuidName := fun k => if k == 0 then "u0" else "u1"
  , insertOk := fun k => k == 0
  , extracted := fun _ => some "hello"
  , timeAt := fun k => k }

/-- First file of the witness batch for C10: commits fully. -/
def fA : InFile := ⟨"a.txt", [104]⟩

/-- Second file of the witness batch for C10: valid but its insert fails. -/
def fC : InFile := ⟨"c.txt", [99]⟩

/-- Witness for C10 on a concrete two-file batch whose second file fails its
metadata insert after its bytes were written. -/
theorem cleanup_exact_spec_witness :
    ((upload_files envC2 "s" ([fA] ++ fC :: []) st0C).2 =
        .error (500, upErrMsg .storeFailed))
    ∧ (∀ s ∈ (commitList envC2 "s" 0 [fA] st0C).2,
        diskLookup (upload_files envC2 "s" ([fA] ++ fC :: []) st0C).1.disk
          s.file_path = none)
    ∧ diskLookup (upload_files envC2 "s" ([fA] ++ fC :: []) st0C).1.disk
        (filePathOf envC2 [fA].length fC) = some fC.content
    ∧ (∀ p, p ∉ (commitList envC2 "s" 0 [fA] st0C).2.map (fun s => s.file_path) →
        diskLookup (upload_files envC2 "s" ([fA] ++ fC :: []) st0C).1.disk p =
          diskLookup (diskWrite (commitList envC2 "s" 0 [fA] st0C).1.disk
            (filePathOf envC2 [fA].length fC) fC.content) p) :=
  cleanup_exact_spec envC2 "s" [fA] fC [] st0C
    (fun i hi => by
      have hi0 : i = 0 := by
        have hi1 : i < 1 := by simpa using hi
        omega
      subst hi0
      exact (by decide : fileOk envC2 0 fA))
    (by decide) (by decide) (by decide) (by decide)

/-- One stored row used by the not-found evaluations. -/
def rowC : Row :=
  { id := 1, session_id := "s", filename := "u0.txt", original_name := "a.txt"
  , file_type := ".txt", file_size := 5, file_path := "/app/uploads/u0.txt"
  , extracted_text := some "hello", upload_date := 10 }

/-- Store holding only the row with id 1. -/
def dbC : DB := ⟨[rowC], 2⟩

/-- Combined state holding that row and its content-store object. -/
def stC : UploadState := ⟨dbC, [("/app/uploads/u0.txt", [104])]⟩

/-- Claim C2 evidence (code bug): with a reachable store and no row of id 7,
the try-block bodies of both endpoints raise the distinct 404 not-found
HTTPException, but the blanket except-Exception handlers of the source catch
that HTTPException and replace it with the generic status-500 failure, so
the caller observes 500, not a 404-class error; the delete leaves the state
untouched. -/
theorem not_found_masked_spec :
    get_file_content_body true dbC 7 = .error (404, "File not found")
    ∧ get_file_content true dbC 7 = .error (500, "Failed to retrieve file content")
    ∧ (delete_file_body true stC 7).2 = .error (404, "File not found")
    ∧ (delete_file true stC 7).2 = .error (500, "Failed to delete file")
    ∧ (delete_file true stC 7).1 = stC :=
  ⟨by decide, by decide, by decide, by decide, by decide⟩

/-- Rows of one session as the listing query selects them. -/
def sessionRows (db : DB) (sid : String) : List Row :=
  db.rows.filter (fun r => r.session_id == sid)

/-- Response list of GET /files/{session_id}: the session rows sorted most
recent first, projected to their response shape. -/
def listViews (db : DB) (sid : String) : List FileView :=
  (List.insertionSort laterEq (sessionRows db sid)).map rowView

/-- Claim C8: listing a session returns exactly the records of that session
(as a permutation of the projected session rows), ordered by upload_date
descending, and returns the empty list rather than an error when the
session has no records. -/
theorem list_by_session_spec (db : DB) (sid : String) :
    get_files true db sid = .ok (listViews db sid)
    ∧ (listViews db sid).Pairwise (fun a b => b.upload_date ≤ a.upload_date)
    ∧ (listViews db sid).Perm ((sessionRows db sid).map rowView)
    ∧ (sessionRows db sid = [] → listViews db sid = []) := by
  refine ⟨rfl, ?_, ?_, ?_⟩
  · have hs : (List.insertionSort laterEq (sessionRows db sid)).Pairwise laterEq :=
      List.sorted_insertionSort laterEq (sessionRows db sid)
    unfold listViews
    rw [List.pairwise_map]
    exact hs
  · exact (List.perm_insertionSort laterEq (sessionRows db sid)).map rowView
  · intro h
    unfold listViews
    rw [h]
    rfl

/-- Three rows of one session with distinct upload dates. -/
def dbThree : DB :=
  ⟨[ ⟨1, "s", "f1", "o1", ".txt", 1, "p1", some "x", 5⟩
   , ⟨2, "s", "f2", "o2", ".txt", 1, "p2", none, 9⟩
   , ⟨3, "s", "f3", "o3", ".txt", 1, "p3", some "", 7⟩ ], 4⟩

/-- Store with no rows at all. -/
def dbEmpty : DB := ⟨[], 1⟩

/-- Witness for C8: three uploads come back most recent first, and a session
with no records yields the empty list. -/
theorem list_by_session_spec_witness :
    get_files true dbThree "s" = .ok (listViews dbThree "s")
    ∧ (listViews dbThree "s").map (fun v => v.upload_date) = [9, 7, 5]
    ∧ listViews dbEmpty "nosuch" = [] :=
  ⟨(list_by_session_spec dbThree "s").1
  , by decide
  , (list_by_session_spec dbEmpty "nosuch").2.2.2 (by decide)⟩

end FileService
